import Mathlib

/-!
Verification of the mobile-mechanic service app's quote calculator,
VIN validation/decoding, and quote lifecycle against its specification.

The quote calculator is embedded from `generateSmartQuote` and
`SERVICE_PRICING` (the in-repo simulation that mirrors the implementation),
the quote dispatcher from `MockQuoteDispatcher.generateQuote` in
`customer-bot-test.ts`, and the VIN functions from `validateVin` and
`generateFallbackVinData` in `vin-scan-validator-test.ts`.

JavaScript numbers are modelled as rationals (`ℚ`), `Math.round` as
Mathlib's `round` (both round half-up), and the clock reads
(`Date.now()`, `getFullYear()`) together with the `Math.random()` draw
used for the travel distance are passed explicitly in an `Env` record.
-/

/-- Urgency levels of a service request. -/
inductive Urgency
  | low | medium | high | emergency
deriving DecidableEq, Repr

/-- Diagnostic confidence label.  The source compares
`aiDiagnosis.confidence` against the string literals `'low'` and
`'high'`; any other value behaves like `medium`. -/
inductive Confidence
  | low | medium | high
deriving DecidableEq, Repr

/-- A min/max cost range, as in `aiDiagnosis.estimatedCost`. -/
structure CostRange where
  min : ℚ
  max : ℚ
deriving DecidableEq, Repr

/-- The fields of a diagnostic result that `generateSmartQuote` reads. -/
structure DiagnosticResult where
  confidence : Confidence
  diagnosticSteps : List String
  urgencyLevel : Urgency
  estimatedCost : Option CostRange
deriving DecidableEq, Repr

/-- One named part with its price, as in `pricing.commonParts`. -/
structure CommonPart where
  name : String
  price : ℚ
deriving DecidableEq, Repr

/-- One entry of the `SERVICE_PRICING` table. -/
structure PricingEntry where
  basePrice : ℚ
  laborRate : ℚ
  estimatedHours : ℚ
  commonParts : List CommonPart
  priceRangeMin : ℚ
  priceRangeMax : ℚ
deriving DecidableEq, Repr

/-- The vehicle fields read by the calculator. -/
structure Vehicle where
  make : String
  model : String
  year : ℤ
  vin : String
  mileage : Option ℚ
deriving DecidableEq, Repr

/-- A service location (only its presence matters to the calculator). -/
structure Location where
  latitude : ℚ
  longitude : ℚ
  address : String
deriving DecidableEq, Repr

/-- The options bundle accepted by `generateSmartQuote`. -/
structure QuoteOptions where
  serviceType : String
  urgency : Urgency
  description : String
  vehicle : Option Vehicle
  aiDiagnosis : Option DiagnosticResult
  selectedParts : Option (List String)
  customLaborHours : Option ℚ
  discountPercent : Option ℚ
  location : Option Location
deriving DecidableEq, Repr

/-- The quote record returned by `generateSmartQuote`. -/
structure Quote where
  id : String
  serviceRequestId : String
  description : String
  laborCost : ℚ
  partsCost : ℚ
  travelCost : ℚ
  totalCost : ℚ
  estimatedDuration : ℚ
  validUntil : ℤ
  status : String
deriving DecidableEq, Repr

/-- Ambient values the source reads impurely: `Date.now()` (ms),
`new Date().getFullYear()`, and the `Math.random() * 20` draw used as the
mock travel distance. -/
structure Env where
  now : ℤ
  year : ℤ
  dist : ℚ
deriving DecidableEq, Repr

/-- The `SERVICE_PRICING` table (quote-ai simulation, `part_008`). -/
def SERVICE_PRICING_LIST : List (String × PricingEntry) :=
  [ ("oil_change",
     { basePrice := 45, laborRate := 75, estimatedHours := 1/2,
       commonParts :=
         [ { name := "Conventional Oil (5qt)", price := 25 },
           { name := "Synthetic Oil (5qt)", price := 45 },
           { name := "Oil Filter", price := 15 } ],
       priceRangeMin := 75, priceRangeMax := 95 }),
    ("brake_service",
     { basePrice := 150, laborRate := 85, estimatedHours := 2,
       commonParts :=
         [ { name := "Brake Pads (Front)", price := 80 },
           { name := "Brake Pads (Rear)", price := 70 },
           { name := "Brake Rotors (Pair)", price := 120 },
           { name := "Brake Fluid", price := 15 } ],
       priceRangeMin := 150, priceRangeMax := 400 }),
    ("engine_diagnostic",
     { basePrice := 100, laborRate := 85, estimatedHours := 3/2,
       commonParts :=
         [ { name := "Diagnostic Fee", price := 100 },
           { name := "Computer Scan", price := 50 } ],
       priceRangeMin := 100, priceRangeMax := 250 }) ]

/-- `SERVICE_PRICING[serviceType]`: `none` models the JS `undefined`. -/
def SERVICE_PRICING (serviceType : String) : Option PricingEntry :=
  SERVICE_PRICING_LIST.lookup serviceType

/-- JS `x || d` on an optional number: `0` is falsy and falls back. -/
def jsOrQ (x : Option ℚ) (d : ℚ) : ℚ :=
  match x with
  | some v => if v = 0 then d else v
  | none => d

/-- The urgency multiplier table `urgencyMultipliers`. -/
def urgencyMult : Urgency → ℚ
  | .low => 95/100
  | .medium => 11/10
  | .high => 5/4
  | .emergency => 3/2

/-- Labor-hours adjustment from the AI diagnosis: `* 1.2` when confidence
is `'low'` or more than 3 diagnostic steps; then `* 0.9` when confidence
is `'high'` (two independent `if` statements in the source). -/
def diagAdjustedHours (h : ℚ) (diag : Option DiagnosticResult) : ℚ :=
  match diag with
  | none => h
  | some d =>
    let h1 := if d.confidence = .low ∨ d.diagnosticSteps.length > 3 then h * (12/10) else h
    if d.confidence = .high then h1 * (9/10) else h1

/-- Labor-rate adjustment from the AI diagnosis: `* 1.5` when the
diagnosed urgency level is `emergency`. -/
def diagAdjustedRate (r : ℚ) (diag : Option DiagnosticResult) : ℚ :=
  match diag with
  | none => r
  | some d => if d.urgencyLevel = .emergency then r * (3/2) else r

/-- Vehicle-age and mileage adjustment of labor hours. -/
def vehicleAdjustedHours (h : ℚ) (vehicle : Option Vehicle) (currentYear : ℤ) : ℚ :=
  match vehicle with
  | none => h
  | some v =>
    let age := currentYear - v.year
    let h1 := if age > 15 then h * (13/10) else if age > 10 then h * (23/20) else h
    match v.mileage with
    | some m => if m > 150000 then h1 * (11/10) else h1
    | none => h1

/-- Travel fee: `$25` base when a location is supplied, plus `$2` per
mile beyond 10 for the mock random distance draw. -/
def travelFee (location : Option Location) (dist : ℚ) : ℚ :=
  match location with
  | none => 0
  | some _ => if dist > 10 then 25 + (dist - 10) * 2 else 25

/-- `part?.price || 0`: the price of the named part in the entry's
common-parts list, or 0 when the name does not match. -/
def foundPartPrice (parts : List CommonPart) (partName : String) : ℚ :=
  match parts.find? (fun p => p.name = partName) with
  | some p => p.price
  | none => 0

/-- Parts cost before brand markup: sum of the selected parts' prices
(unknown names contribute 0) when a non-empty selection is given; else
the midpoint of the diagnostic cost range when present; else the
rounded mean of the entry's common part prices. -/
def basePartsCost (pricing : PricingEntry) (selectedParts : Option (List String))
    (diag : Option DiagnosticResult) : ℚ :=
  match selectedParts with
  | some ps =>
    if ps.length > 0 then
      ps.foldl (fun total partName => total + foundPartPrice pricing.commonParts partName) 0
    else basePartsCostFallback pricing diag
  | none => basePartsCostFallback pricing diag
where
  /-- The no-selection branch shared by `undefined` and empty selections. -/
  basePartsCostFallback (pricing : PricingEntry) (diag : Option DiagnosticResult) : ℚ :=
    match diag with
    | some d =>
      match d.estimatedCost with
      | some r => ((round ((r.min + r.max) / 2) : ℤ) : ℚ)
      | none =>
        ((round ((pricing.commonParts.foldl (fun s p => s + p.price) 0) /
          (pricing.commonParts.length : ℚ)) : ℤ) : ℚ)
    | none =>
      ((round ((pricing.commonParts.foldl (fun s p => s + p.price) 0) /
        (pricing.commonParts.length : ℚ)) : ℤ) : ℚ)

/-- The luxury brand list for the 1.3 parts markup. -/
def luxuryBrands : List String :=
  ["BMW", "Mercedes", "Audi", "Lexus", "Acura", "Infiniti", "Cadillac"]

/-- The import brand list for the 1.1 parts markup. -/
def importBrands : List String :=
  ["Toyota", "Honda", "Nissan", "Subaru", "Mazda", "Mitsubishi"]

/-- Brand markup applied to the parts cost (two sequential `if`s in the
source; the two brand lists are disjoint). -/
def brandAdjustedParts (c : ℚ) (vehicle : Option Vehicle) : ℚ :=
  match vehicle with
  | none => c
  | some v =>
    let c1 := if luxuryBrands.contains v.make then c * (13/10) else c
    if importBrands.contains v.make then c1 * (11/10) else c1

/-- JS `serviceType.replace('_', ' ')`: only the first underscore is
replaced. -/
def replaceFirstUnderscore : List Char → List Char
  | [] => []
  | c :: cs => if c = '_' then ' ' :: cs else c :: replaceFirstUnderscore cs

/-- The generated quote description string. -/
def quoteDescription (serviceType : String) : String :=
  "Professional " ++ String.mk (replaceFirstUnderscore serviceType.toList) ++
    " service including comprehensive inspection"

/-- Applies the optional percentage discount to the subtotal and rounds,
as in the final lines of `generateSmartQuote`. -/
def totalWithDiscount (subtotal : ℚ) (discountPercent : Option ℚ) : ℤ :=
  match discountPercent with
  | some d => if d > 0 then round (subtotal * (1 - d / 100)) else round subtotal
  | none => round subtotal

/-- The body of `generateSmartQuote` once the pricing entry is resolved. -/
def quoteFromPricing (serviceRequestId : String) (opts : QuoteOptions) (env : Env)
    (pricing : PricingEntry) : Quote :=
  let laborHours0 := jsOrQ opts.customLaborHours pricing.estimatedHours
  let laborHours1 := diagAdjustedHours laborHours0 opts.aiDiagnosis
  let laborHours := vehicleAdjustedHours laborHours1 opts.vehicle env.year
  let laborRate := diagAdjustedRate pricing.laborRate opts.aiDiagnosis * urgencyMult opts.urgency
  let laborCost : ℚ := ((round (laborHours * laborRate) : ℤ) : ℚ)
  let partsCost := brandAdjustedParts
    (basePartsCost pricing opts.selectedParts opts.aiDiagnosis) opts.vehicle
  let travel := travelFee opts.location env.dist
  let subtotal := laborCost + partsCost + travel
  { id := toString env.now
    serviceRequestId := serviceRequestId
    description := quoteDescription opts.serviceType
    laborCost := laborCost
    partsCost := partsCost
    travelCost := travel
    totalCost := ((totalWithDiscount subtotal opts.discountPercent : ℤ) : ℚ)
    estimatedDuration := laborHours
    validUntil := env.now + 7 * 24 * 60 * 60 * 1000
    status := "pending" }

/-- `generateSmartQuote(serviceRequestId, options)`.  The source indexes
`SERVICE_PRICING[options.serviceType]` without a guard and crashes on an
unknown service type; that failure is modelled as `none`. -/
def generateSmartQuote (serviceRequestId : String) (opts : QuoteOptions) (env : Env) :
    Option Quote :=
  (SERVICE_PRICING opts.serviceType).map (quoteFromPricing serviceRequestId opts env)

example :
    (generateSmartQuote "r"
      { serviceType := "oil_change", urgency := .medium, description := "d",
        vehicle := none, aiDiagnosis := none, selectedParts := none,
        customLaborHours := none, discountPercent := none, location := none }
      { now := 0, year := 2024, dist := 0 }).map Quote.totalCost = some 69 := by
  norm_num [generateSmartQuote, SERVICE_PRICING, SERVICE_PRICING_LIST, List.lookup,
    quoteFromPricing, jsOrQ, diagAdjustedHours, diagAdjustedRate, vehicleAdjustedHours,
    travelFee, basePartsCost, basePartsCost.basePartsCostFallback, brandAdjustedParts,
    totalWithDiscount, urgencyMult, round_eq, Int.floor_eq_iff]

/-! ## Quote dispatcher (`MockQuoteDispatcher.generateQuote`) -/

/-- `Object.keys(SERVICE_PRICING)`. -/
def availableServices : List String := SERVICE_PRICING_LIST.map Prod.fst

/-- The vehicle classes distinguished by the VIN tooling. -/
inductive VehicleType
  | car | motorcycle | scooter
deriving DecidableEq, Repr

/-- The VIN decode result record (`VinData` in `types/service`). -/
structure VinData where
  vin : String
  make : String
  model : String
  year : ℤ
  vehicleType : VehicleType
deriving DecidableEq, Repr

/-- `MockQuoteDispatcher.generateQuote(serviceRequestId, vinData, serviceType)`
from `customer-bot-test.ts`: maps `oil-change` to `oil_change`, substitutes
`oil_change` for any service type missing from `SERVICE_PRICING`, then calls
`generateSmartQuote` with fixed urgency, location and a vehicle built from
the decoded VIN data. -/
def dispatcherGenerateQuote (serviceRequestId : String) (vinData : VinData)
    (serviceType : String) (env : Env) : Option Quote :=
  let mapped0 := if serviceType = "oil-change" then "oil_change" else serviceType
  let mapped := if availableServices.contains mapped0 then mapped0 else "oil_change"
  let vehicle : Vehicle :=
    { make := vinData.make, model := vinData.model, year := vinData.year,
      vin := vinData.vin, mileage := some 15000 }
  generateSmartQuote serviceRequestId
    { serviceType := mapped, urgency := .medium,
      description := "Customer requested oil change service for motorcycle",
      vehicle := some vehicle, aiDiagnosis := none, selectedParts := none,
      customLaborHours := none, discountPercent := none,
      location := some { latitude := 40.7128, longitude := -74.0060,
                         address := "123 Test St, New York, NY 10001" } }
    env

/-! ## VIN validation and decoding (`vin-scan-validator-test.ts`) -/

/-- JS `toUpperCase`, modelled character-wise (kernel-computable, unlike
`String.toUpper`). -/
def jsToUpper (s : String) : String := String.mk (s.toList.map Char.toUpper)

/-- A character of the VIN regex class: letters A-Z except I, O, Q, or a
digit. -/
def isVinChar (c : Char) : Bool :=
  (('A' ≤ c && c ≤ 'Z') && c ≠ 'I' && c ≠ 'O' && c ≠ 'Q') || ('0' ≤ c && c ≤ '9')

/-- `validateVin(vin, vehicleType)`: cars need exactly 17 characters of
the VIN class; motorcycles and scooters are matched against
`^[A-HJ-NPR-Z0-9]{11,17}$`, i.e. lengths 11 to 17.  The regex is applied
to `vin.toUpperCase()`. -/
def validateVin (vin : String) (vehicleType : VehicleType) : Bool :=
  let u := jsToUpper vin
  if vehicleType = .car then
    u.length = 17 && u.toList.all isVinChar
  else
    (decide (11 ≤ u.length) && decide (u.length ≤ 17)) && u.toList.all isVinChar

/-- The 10th-character model-year map used by `generateFallbackVinData`. -/
def yearMapLookup : Char → Option ℤ
  | 'A' => some 2010 | 'B' => some 2011 | 'C' => some 2012 | 'D' => some 2013
  | 'E' => some 2014 | 'F' => some 2015 | 'G' => some 2016 | 'H' => some 2017
  | 'J' => some 2018 | 'K' => some 2019 | 'L' => some 2020 | 'M' => some 2021
  | 'N' => some 2022 | 'P' => some 2023 | 'R' => some 2024
  | '1' => some 2001 | '2' => some 2002 | '3' => some 2003 | '4' => some 2004
  | '5' => some 2005 | '6' => some 2006 | '7' => some 2007 | '8' => some 2008
  | '9' => some 2009
  | _ => none

/-- The motorcycle/scooter manufacturer table keyed by the first three
characters of the VIN (`motorcycleMap` in the source). -/
def motorcycleMap3 : List (String × String × VehicleType) :=
  [ ("1HD", ("Harley-Davidson", .motorcycle)),
    ("JH2", ("Honda", .motorcycle)), ("JH3", ("Honda", .motorcycle)),
    ("JHM", ("Honda", .motorcycle)),
    ("JKA", ("Kawasaki", .motorcycle)), ("JKB", ("Kawasaki", .motorcycle)),
    ("JS1", ("Suzuki", .motorcycle)), ("JS2", ("Suzuki", .motorcycle)),
    ("JYA", ("Yamaha", .motorcycle)), ("JYB", ("Yamaha", .motorcycle)),
    ("L5Y", ("TaoTao", .scooter)), ("L6T", ("Kymco", .scooter)),
    ("LVV", ("Vespa", .scooter)), ("ME4", ("KTM", .motorcycle)),
    ("ZAP", ("Piaggio", .scooter)), ("VTH", ("Triumph", .motorcycle)),
    ("WVB", ("BMW", .motorcycle)), ("93M", ("Indian", .motorcycle)),
    ("5J6", ("Yamaha", .scooter)), ("RF9", ("Aprilia", .motorcycle)),
    ("RFB", ("Vespa", .scooter)), ("ZDM", ("Ducati", .motorcycle)) ]

/-- The two-character fallback table for motorcycles and scooters
(`shortPrefixMap` in the source). -/
def motorcycleMap2 : List (String × String × VehicleType) :=
  [ ("JH", ("Honda", .motorcycle)), ("JK", ("Kawasaki", .motorcycle)),
    ("JS", ("Suzuki", .motorcycle)), ("JY", ("Yamaha", .motorcycle)),
    ("L5", ("Chinese Manufacturer", .scooter)),
    ("L6", ("Chinese Manufacturer", .scooter)) ]

/-- The car manufacturer table keyed by the three-character WMI
(`manufacturerMap` in the source). -/
def carMap : List (String × String) :=
  [ ("1G1", "Chevrolet"), ("1G6", "Cadillac"), ("1GC", "Chevrolet"),
    ("1FA", "Ford"), ("1FB", "Ford"), ("1FC", "Ford"), ("1FD", "Ford"),
    ("1FT", "Ford"), ("1FU", "Ford"), ("1FV", "Ford"),
    ("1HG", "Honda"), ("1HT", "Honda"),
    ("1J4", "Jeep"), ("1J8", "Jeep"),
    ("1N4", "Nissan"), ("1N6", "Nissan"),
    ("2C3", "Chrysler"), ("2C4", "Chrysler"),
    ("2G1", "Chevrolet"), ("2G2", "Pontiac"),
    ("2T1", "Toyota"), ("2T2", "Toyota"),
    ("3FA", "Ford"), ("3FE", "Ford"),
    ("4F2", "Mazda"), ("4F4", "Mazda"),
    ("4T1", "Toyota"), ("4T3", "Toyota"),
    ("5NP", "Hyundai"), ("5TD", "Toyota"),
    ("JH4", "Acura"), ("JHM", "Honda"),
    ("JM1", "Mazda"), ("JM3", "Mazda"),
    ("JN1", "Nissan"), ("JN8", "Nissan"),
    ("JT2", "Toyota"), ("JT3", "Toyota"),
    ("JTD", "Toyota"),
    ("KM8", "Hyundai"), ("KNA", "Kia"),
    ("WBA", "BMW"), ("WBS", "BMW"),
    ("WDB", "Mercedes-Benz"), ("WDD", "Mercedes-Benz"),
    ("WVW", "Volkswagen"), ("WV1", "Volkswagen") ]

/-- `generateFallbackVinData(vin, vehicleType)`.  The current calendar
year is passed explicitly.  The motorcycle/scooter tables are consulted
only when the hinted vehicle type is `motorcycle` or `scooter`; a `car`
hint goes to the car table and leaves the hinted type unchanged. -/
def generateFallbackVinData (vin : String) (vehicleType : VehicleType)
    (currentYear : ℤ) : VinData :=
  let vinUpper := jsToUpper vin
  let year : ℤ :=
    if vin.length = 17 then
      match vinUpper.toList.drop 9 with
      | c :: _ => (yearMapLookup c).getD currentYear
      | [] => currentYear
    else currentYear
  if vehicleType = .motorcycle ∨ vehicleType = .scooter then
    match motorcycleMap3.lookup (String.mk (vinUpper.toList.take 3)) with
    | some e =>
      { vin := vinUpper, make := e.1, model := "Unknown Model", year := year,
        vehicleType := e.2 }
    | none =>
      match motorcycleMap2.lookup (String.mk (vinUpper.toList.take 2)) with
      | some e =>
        { vin := vinUpper, make := e.1, model := "Unknown Model", year := year,
          vehicleType := e.2 }
      | none =>
        { vin := vinUpper, make := "Unknown", model := "Unknown Model",
          year := year, vehicleType := vehicleType }
  else
    { vin := vinUpper,
      make := ((carMap.lookup (String.mk (vinUpper.toList.take 3))).getD "Unknown"),
      model := "Unknown Model", year := year, vehicleType := vehicleType }

/-! ## Quote lifecycle manager -/

/-- Status values of the quote lifecycle state machine. -/
inductive QuoteStatus
  | pending | accepted | depositPaid | paid | rejected | expired | cancelled
deriving DecidableEq, Repr

/-- The quote fields the lifecycle manager reads and stamps. -/
structure LifecycleQuote where
  status : QuoteStatus
  validUntil : ℤ
  acceptedAt : Option ℤ
  paidAt : Option ℤ
  paymentMethod : Option String
  notes : Option String
deriving DecidableEq, Repr

/-- The context record passed to a lifecycle transition. -/
structure TransitionContext where
  paymentMethod : Option String
  notes : Option String
deriving DecidableEq, Repr

/-- The lifecycle manager's error value. -/
inductive TransitionError
  | invalidTransition
deriving DecidableEq, Repr

/-- Modelled from the spec: the state graph of §4.4
(`pending -> {accepted, rejected, expired, cancelled}`;
`accepted -> {deposit_paid, paid, cancelled}`;
`deposit_paid -> {paid, cancelled}`; `paid`, `rejected`, `expired`,
`cancelled` terminal).  The Quote Lifecycle Manager itself is not under
`src/`; only its mock callers (`MockAppStore.updateQuote` and the
customer-bot payment flow) are. -/
def allowedTransition : QuoteStatus → QuoteStatus → Bool
  | .pending, .accepted => true
  | .pending, .rejected => true
  | .pending, .expired => true
  | .pending, .cancelled => true
  | .accepted, .depositPaid => true
  | .accepted, .paid => true
  | .accepted, .cancelled => true
  | .depositPaid, .paid => true
  | .depositPaid, .cancelled => true
  | _, _ => false

/-- Modelled from the spec: `transition(quote, newStatus, context)` of
§4.4, which is not under `src/`.  Rules: transitions must follow the
state graph (terminal states admit none); `expired` requires
`now > validUntil`; `paid` requires a `paymentMethod` in the context;
`rejected` requires a `notes` reason; `accepted`/`paid` stamp
`acceptedAt`/`paidAt`.  Returns a new quote value, never mutating. -/
def transition (q : LifecycleQuote) (newStatus : QuoteStatus)
    (ctx : TransitionContext) (now : ℤ) : Except TransitionError LifecycleQuote :=
  if ¬ allowedTransition q.status newStatus then .error .invalidTransition
  else if newStatus = .expired ∧ ¬ now > q.validUntil then .error .invalidTransition
  else if newStatus = .paid ∧ ctx.paymentMethod = none then .error .invalidTransition
  else if newStatus = .rejected ∧ ctx.notes = none then .error .invalidTransition
  else .ok
    { status := newStatus
      validUntil := q.validUntil
      acceptedAt := if newStatus = .accepted then some now else q.acceptedAt
      paidAt := if newStatus = .paid then some now else q.paidAt
      paymentMethod := if newStatus = .paid then ctx.paymentMethod else q.paymentMethod
      notes := if newStatus = .rejected then ctx.notes else q.notes }

/-- `true` exactly when a transition succeeded. -/
def transitionOk (r : Except TransitionError LifecycleQuote) : Bool :=
  match r with
  | .ok _ => true
  | .error _ => false

/-! ## Shared fixtures and helper lemmas -/

/-- A minimal options record used by concrete instantiations. -/
def opts0 : QuoteOptions :=
  { serviceType := "oil_change", urgency := .medium, description := "d",
    vehicle := none, aiDiagnosis := none, selectedParts := none,
    customLaborHours := none, discountPercent := none, location := none }

/-- A fixed environment: epoch clock, year 2024, zero distance draw. -/
def env0 : Env := { now := 0, year := 2024, dist := 0 }

/-- A concrete location record. -/
def locX : Location :=
  { latitude := 40.7128, longitude := -74.006, address := "123 Main St" }

/-- A diagnosis with emergency urgency and no confidence signal. -/
def diagEmergency : DiagnosticResult :=
  { confidence := .medium, diagnosticSteps := [], urgencyLevel := .emergency,
    estimatedCost := none }

/-- A high-confidence diagnosis with no recorded steps. -/
def diagHighNoSteps : DiagnosticResult :=
  { confidence := .high, diagnosticSteps := [], urgencyLevel := .low,
    estimatedCost := none }

/-- A high-confidence diagnosis that took four diagnostic steps. -/
def diagHighManySteps : DiagnosticResult :=
  { confidence := .high,
    diagnosticSteps := ["OBD scan", "Check spark plugs", "Test fuel", "Inspect sensors"],
    urgencyLevel := .medium, estimatedCost := none }

theorem round_mono_of_le {x y : ℚ} (h : x ≤ y) : round x ≤ round y := by
  rw [round_eq, round_eq]
  exact Int.floor_mono (by linarith)

theorem round_nonneg_of_nonneg {x : ℚ} (h : 0 ≤ x) : (0 : ℤ) ≤ round x := by
  rw [round_eq]
  exact Int.le_floor.mpr (by push_cast; linarith)

/-! ## C10 -/

/-- C10: an explicitly empty `selectedParts` list fails the
`length > 0` guard, so the quote is computed exactly as when
`selectedParts` is absent (diagnostic cost-range midpoint, else mean of
the entry's common part prices) — never as a zero parts cost. -/
theorem empty_selection_same_as_absent (reqId : String) (opts : QuoteOptions) (env : Env) :
    generateSmartQuote reqId { opts with selectedParts := some [] } env =
      generateSmartQuote reqId { opts with selectedParts := none } env := rfl

/-! ## C7 -/

/-- C7: a transition to `paid` without a `paymentMethod` in the context
always fails, and a transition to `paid` from `pending` always fails
even with a payment method (a quote must pass through `accepted`). -/
theorem paid_transition_guards (q : LifecycleQuote) (ctx : TransitionContext) (now : ℤ) :
    (ctx.paymentMethod = none → transitionOk (transition q .paid ctx now) = false) ∧
    (q.status = .pending → transitionOk (transition q .paid ctx now) = false) := by
  constructor
  · intro hpm
    unfold transition
    cases hs : q.status <;> simp [allowedTransition, transitionOk, hpm]
  · intro hs
    unfold transition
    simp [hs, allowedTransition, transitionOk]

/-- Witness for C7 at a concrete accepted quote with no payment method
and a concrete pending quote with a card payment method. -/
theorem paid_transition_guards_witness :
    transitionOk (transition
      { status := .accepted, validUntil := 0, acceptedAt := none, paidAt := none,
        paymentMethod := none, notes := none } .paid
      { paymentMethod := none, notes := none } 5) = false ∧
    transitionOk (transition
      { status := .pending, validUntil := 0, acceptedAt := none, paidAt := none,
        paymentMethod := none, notes := none } .paid
      { paymentMethod := some "card", notes := none } 5) = false :=
  ⟨(paid_transition_guards _ _ _).1 rfl, (paid_transition_guards _ _ _).2 rfl⟩

/-! ## C2 -/

/-- C2: the motorcycle/scooter branch of `validateVin` matches
`^[A-HJ-NPR-Z0-9]{11,17}$`, so the repo's own 9- and 10-character
scooter test VINs (expected to validate, and within the spec's 9-17
contract) are rejected. -/
theorem scooter_vin_9_and_10_rejected :
    validateVin "ZAPC31100" .scooter = false ∧
    validateVin "5J6TC1200A" .scooter = false ∧
    "ZAPC31100".length = 9 ∧ "5J6TC1200A".length = 10 ∧
    "ZAPC31100".toList.all isVinChar = true ∧
    "5J6TC1200A".toList.all isVinChar = true ∧
    validateVin "ZAPC3110000" .scooter = true := by decide

/-! ## C4 -/

/-- C4 counterexample: a high-confidence diagnosis with more than 3
diagnostic steps receives both the 1.2 and the 0.9 labor-hours factors
(net 1.08), not only the 0.9 factor. -/
theorem high_confidence_long_diag_gets_both_factors :
    diagHighManySteps.confidence = .high ∧
    diagHighManySteps.diagnosticSteps.length > 3 ∧
    diagAdjustedHours 1 (some diagHighManySteps) = 27/25 ∧
    diagAdjustedHours 1 (some diagHighManySteps) ≠ 1 * (9/10) := by
  refine ⟨rfl, by norm_num [diagHighManySteps], ?_, ?_⟩ <;>
    norm_num [diagAdjustedHours, diagHighManySteps]

/-- C4 amended: the 1.2 and 0.9 adjustments come from two independent
`if` statements.  A high-confidence diagnosis gets only the 0.9 factor
when it took at most 3 steps, but both factors when it took more; a
low-confidence diagnosis gets exactly the 1.2 factor; with neither
label, only the step-count can trigger 1.2. -/
theorem diag_hours_characterization (h : ℚ) (d : DiagnosticResult) :
    (d.confidence = .high →
      diagAdjustedHours h (some d) =
        if d.diagnosticSteps.length > 3 then h * (12/10) * (9/10) else h * (9/10)) ∧
    (d.confidence = .low → diagAdjustedHours h (some d) = h * (12/10)) ∧
    (d.confidence = .medium →
      diagAdjustedHours h (some d) =
        if d.diagnosticSteps.length > 3 then h * (12/10) else h) := by
  refine ⟨fun hc => ?_, fun hc => ?_, fun hc => ?_⟩ <;>
    by_cases hsteps : d.diagnosticSteps.length > 3 <;>
    simp [diagAdjustedHours, hc, hsteps]

/-- Witness for C4's amended claim: a high-confidence, zero-step
diagnosis gets exactly the 0.9 factor. -/
theorem diag_hours_characterization_witness :
    diagAdjustedHours 2 (some diagHighNoSteps) = 2 * (9/10) := by
  have h := (diag_hours_characterization 2 diagHighNoSteps).1 rfl
  simpa [diagHighNoSteps] using h

/-! ## C3 -/

/-- C3 counterexample: with an emergency diagnosis but urgency `low`
passed in the options, the effective labor-rate multiplier is
1.5 × 0.95 = 1.425 < 1.5. -/
theorem emergency_diag_low_urgency_under_1p5 :
    diagEmergency.urgencyLevel = .emergency ∧
    diagAdjustedRate 75 (some diagEmergency) * urgencyMult .low < (3/2) * 75 := by
  refine ⟨rfl, ?_⟩
  norm_num [diagAdjustedRate, diagEmergency, urgencyMult]

/-- C3 amended: with an emergency diagnosis the labor rate is the base
rate times 1.5 times the urgency multiplier of the separately passed
urgency, hence at least 1.425 times the base rate (1.425 exactly when
the passed urgency is `low`, at least 1.5 otherwise). -/
theorem emergency_diag_rate_bound (r : ℚ) (d : DiagnosticResult) (u : Urgency)
    (hd : d.urgencyLevel = .emergency) (hr : 0 ≤ r) :
    diagAdjustedRate r (some d) * urgencyMult u = r * (3/2) * urgencyMult u ∧
    r * (57/40) ≤ diagAdjustedRate r (some d) * urgencyMult u := by
  have heq : diagAdjustedRate r (some d) = r * (3/2) := by
    simp [diagAdjustedRate, hd]
  refine ⟨by rw [heq], ?_⟩
  rw [heq]
  cases u <;> norm_num [urgencyMult] <;> nlinarith

/-- Witness for C3's amended claim at the base oil-change labor rate. -/
theorem emergency_diag_rate_bound_witness :
    diagAdjustedRate 75 (some diagEmergency) * urgencyMult .low =
      75 * (3/2) * urgencyMult .low ∧
    (75 : ℚ) * (57/40) ≤ diagAdjustedRate 75 (some diagEmergency) * urgencyMult .low :=
  emergency_diag_rate_bound 75 diagEmergency .low rfl (by norm_num)

/-! ## C8 -/

/-- C8 counterexample: VIN `JH2RC5006LM200001` matches the motorcycle
table entry (`JH2` → Honda, motorcycle), yet with a `car` hint the
decoder never consults that table and returns make `Unknown` and class
`car`. -/
theorem car_hint_ignores_motorcycle_table :
    motorcycleMap3.lookup "JH2" = some ("Honda", .motorcycle) ∧
    String.mk ((jsToUpper "JH2RC5006LM200001").toList.take 3) = "JH2" ∧
    (generateFallbackVinData "JH2RC5006LM200001" .car 2025).make = "Unknown" ∧
    (generateFallbackVinData "JH2RC5006LM200001" .car 2025).vehicleType = .car := by
  decide

/-- C8 amended: only when the caller hints `motorcycle` or `scooter`
does a three-character match in the motorcycle/scooter table determine
the decoded make and vehicle class (overriding the hint between those
two classes); a `car` hint routes decoding to the car table. -/
theorem motorcycle_table_match_determines_class (vin : String) (hint : VehicleType)
    (cy : ℤ) (mk : String) (ty : VehicleType)
    (hhint : hint = .motorcycle ∨ hint = .scooter)
    (hlook : motorcycleMap3.lookup (String.mk ((jsToUpper vin).toList.take 3)) =
      some (mk, ty)) :
    (generateFallbackVinData vin hint cy).make = mk ∧
    (generateFallbackVinData vin hint cy).vehicleType = ty := by
  unfold generateFallbackVinData
  rw [if_pos hhint, hlook]
  exact ⟨rfl, rfl⟩

/-- Witness for C8's amended claim: a `motorcycle` hint with a Piaggio
scooter VIN is overridden to class `scooter` by the table. -/
theorem motorcycle_table_match_determines_class_witness :
    (generateFallbackVinData "ZAPC31100" .motorcycle 2025).make = "Piaggio" ∧
    (generateFallbackVinData "ZAPC31100" .motorcycle 2025).vehicleType = .scooter :=
  motorcycle_table_match_determines_class "ZAPC31100" .motorcycle 2025 "Piaggio"
    .scooter (Or.inl rfl) (by decide)

/-! ## C5 -/

/-- C5 counterexample: two calls with identical options and an identical
clock but different `Math.random()` draws return different travel (and
total) costs, so the quote is not a function of the options and the
date alone. -/
theorem travel_cost_depends_on_random_draw :
    (generateSmartQuote "r" { opts0 with location := some locX }
        { now := 0, year := 2024, dist := 0 }).map Quote.travelCost = some 25 ∧
    (generateSmartQuote "r" { opts0 with location := some locX }
        { now := 0, year := 2024, dist := 15 }).map Quote.travelCost = some 35 ∧
    (25 : ℚ) ≠ 35 := by
  refine ⟨?_, ?_, by norm_num⟩ <;>
    norm_num [generateSmartQuote, SERVICE_PRICING, SERVICE_PRICING_LIST, List.lookup,
      quoteFromPricing, travelFee, opts0, locX]

/-- C5 amended: `generateSmartQuote` is deterministic given the options,
the clock, and the random travel-distance draw; when no location is
supplied the draw is irrelevant, so the quote is a function of options
and clock alone. -/
theorem quote_deterministic_given_draw (reqId : String) (opts : QuoteOptions)
    (e1 e2 : Env) (hnow : e1.now = e2.now) (hyear : e1.year = e2.year)
    (hrand : opts.location = none ∨ e1.dist = e2.dist) :
    generateSmartQuote reqId opts e1 = generateSmartQuote reqId opts e2 := by
  obtain ⟨n1, y1, d1⟩ := e1
  obtain ⟨n2, y2, d2⟩ := e2
  dsimp at hnow hyear
  subst hnow hyear
  rcases hrand with h | h
  · cases hsp : SERVICE_PRICING opts.serviceType <;>
      simp [generateSmartQuote, hsp, quoteFromPricing, h, travelFee]
  · dsimp at h
    subst h
    rfl

/-- Witness for C5's amended claim: with no location, two different
draws give identical quotes. -/
theorem quote_deterministic_given_draw_witness :
    generateSmartQuote "r" opts0 { now := 0, year := 2024, dist := 0 } =
      generateSmartQuote "r" opts0 { now := 0, year := 2024, dist := 7 } :=
  quote_deterministic_given_draw "r" opts0 _ _ rfl rfl (Or.inl rfl)

/-! ## C1 -/

theorem pricing_isSome_of_contains {s : String}
    (h : availableServices.contains s = true) : (SERVICE_PRICING s).isSome = true := by
  by_cases h1 : s = "oil_change"
  · subst h1; rfl
  by_cases h2 : s = "brake_service"
  · subst h2; rfl
  by_cases h3 : s = "engine_diagnostic"
  · subst h3; rfl
  exfalso
  simp [availableServices, SERVICE_PRICING_LIST, List.contains] at h
  rcases h with h | h | h <;> simp_all

/-- C1: the dispatcher's `generateQuote` always returns a quote — any
service type missing from `SERVICE_PRICING` is substituted by the
generic `oil_change` entry before `generateSmartQuote` is called — and
for such a substituted service type the quote's description names the
substituted generic oil-change service. -/
theorem dispatcher_always_quotes (reqId : String) (vinData : VinData)
    (serviceType : String) (env : Env) :
    (dispatcherGenerateQuote reqId vinData serviceType env).isSome = true ∧
    (SERVICE_PRICING serviceType = none →
      (dispatcherGenerateQuote reqId vinData serviceType env).map Quote.description =
        some "Professional oil change service including comprehensive inspection") := by
  simp only [dispatcherGenerateQuote]
  by_cases h0 : serviceType = "oil-change"
  · subst h0
    exact ⟨rfl, fun _ => rfl⟩
  · rw [if_neg h0]
    by_cases hc : availableServices.contains serviceType = true
    · rw [if_pos hc]
      have hs := pricing_isSome_of_contains hc
      constructor
      · simp [generateSmartQuote, Option.isSome_map]
        exact hs
      · intro hnone
        rw [hnone] at hs
        simp at hs
    · rw [if_neg hc]
      exact ⟨rfl, fun _ => rfl⟩

/-- Witness for C1 at the unknown service type
`motorcycle_oil_change` (the customer-bot motorcycle flow). -/
theorem dispatcher_always_quotes_witness :
    (dispatcherGenerateQuote "req-1"
        { vin := "1HGCM82633A123456", make := "Honda", model := "CBR600RR",
          year := 2023, vehicleType := .motorcycle }
        "motorcycle_oil_change" env0).isSome = true ∧
    SERVICE_PRICING "motorcycle_oil_change" = none ∧
    (dispatcherGenerateQuote "req-1"
        { vin := "1HGCM82633A123456", make := "Honda", model := "CBR600RR",
          year := 2023, vehicleType := .motorcycle }
        "motorcycle_oil_change" env0).map Quote.description =
      some "Professional oil change service including comprehensive inspection" := by
  refine ⟨(dispatcher_always_quotes _ _ _ _).1, rfl, (dispatcher_always_quotes _ _ _ _).2 rfl⟩

/-! ## C6 -/

theorem urgencyMult_pos (u : Urgency) : 0 < urgencyMult u := by
  cases u <;> norm_num [urgencyMult]

theorem pricing_facts {s : String} {p : PricingEntry} (h : SERVICE_PRICING s = some p) :
    0 < p.estimatedHours ∧ 0 < p.laborRate ∧ 0 < p.commonParts.length ∧
    (∀ pt ∈ p.commonParts, 0 ≤ pt.price) ∧
    0 ≤ p.commonParts.foldl (fun s pt => s + pt.price) 0 := by
  by_cases h1 : s = "oil_change"
  · subst h1
    obtain rfl : _ = p := Option.some.inj h
    refine ⟨by norm_num, by norm_num, by norm_num, ?_, by norm_num⟩
    intro pt hpt
    fin_cases hpt <;> norm_num
  · by_cases h2 : s = "brake_service"
    · subst h2
      obtain rfl : _ = p := Option.some.inj h
      refine ⟨by norm_num, by norm_num, by norm_num, ?_, by norm_num⟩
      intro pt hpt
      fin_cases hpt <;> norm_num
    · by_cases h3 : s = "engine_diagnostic"
      · subst h3
        obtain rfl : _ = p := Option.some.inj h
        refine ⟨by norm_num, by norm_num, by norm_num, ?_, by norm_num⟩
        intro pt hpt
        fin_cases hpt <;> norm_num
      · exfalso
        have hb1 : (s == "oil_change") = false := by simpa using h1
        have hb2 : (s == "brake_service") = false := by simpa using h2
        have hb3 : (s == "engine_diagnostic") = false := by simpa using h3
        simp [SERVICE_PRICING, SERVICE_PRICING_LIST, List.lookup, hb1, hb2, hb3] at h

theorem jsOrQ_nonneg {x : Option ℚ} {d : ℚ}
    (hx : ∀ v, x = some v → 0 ≤ v) (hd : 0 ≤ d) : 0 ≤ jsOrQ x d := by
  cases x with
  | none => exact hd
  | some v =>
    by_cases hv : v = 0
    · simpa [jsOrQ, hv] using hd
    · simpa [jsOrQ, hv] using hx v rfl

theorem diagAdjustedHours_nonneg {h : ℚ} (hh : 0 ≤ h)
    (diag : Option DiagnosticResult) : 0 ≤ diagAdjustedHours h diag := by
  cases diag with
  | none => exact hh
  | some d =>
    dsimp only [diagAdjustedHours]
    split <;> split <;> nlinarith

theorem vehicleAdjustedHours_nonneg {h : ℚ} (hh : 0 ≤ h)
    (vehicle : Option Vehicle) (cy : ℤ) : 0 ≤ vehicleAdjustedHours h vehicle cy := by
  cases vehicle with
  | none => exact hh
  | some v =>
    dsimp only [vehicleAdjustedHours]
    have h1 : 0 ≤ (if cy - v.year > 15 then h * (13/10)
        else if cy - v.year > 10 then h * (23/20) else h) := by
      split
      · nlinarith
      · split
        · nlinarith
        · exact hh
    cases v.mileage with
    | none => exact h1
    | some m =>
      dsimp only
      split
      · nlinarith
      · exact h1

theorem diagAdjustedRate_nonneg {r : ℚ} (hr : 0 ≤ r)
    (diag : Option DiagnosticResult) : 0 ≤ diagAdjustedRate r diag := by
  cases diag with
  | none => exact hr
  | some d =>
    dsimp only [diagAdjustedRate]
    split <;> nlinarith

theorem travelFee_nonneg (location : Option Location) (dist : ℚ) :
    0 ≤ travelFee location dist := by
  cases location with
  | none => exact le_refl 0
  | some l =>
    dsimp only [travelFee]
    split
    · nlinarith
    · norm_num

theorem foundPartPrice_nonneg {parts : List CommonPart}
    (hp : ∀ pt ∈ parts, 0 ≤ pt.price) (nm : String) : 0 ≤ foundPartPrice parts nm := by
  unfold foundPartPrice
  cases hf : parts.find? (fun p => p.name = nm) with
  | none => exact le_refl 0
  | some pt => exact hp pt (List.mem_of_find?_eq_some hf)

theorem selected_sum_nonneg {parts : List CommonPart}
    (hp : ∀ pt ∈ parts, 0 ≤ pt.price) :
    ∀ (ps : List String) (acc : ℚ), 0 ≤ acc →
      0 ≤ ps.foldl (fun total partName => total + foundPartPrice parts partName) acc := by
  intro ps
  induction ps with
  | nil => intro acc hacc; simpa using hacc
  | cons q qs ih =>
    intro acc hacc
    simp only [List.foldl_cons]
    exact ih _ (by have := foundPartPrice_nonneg hp q; linarith)

theorem basePartsCostFallback_nonneg {p : PricingEntry} {diag : Option DiagnosticResult}
    (hlen : 0 < p.commonParts.length)
    (hsum : 0 ≤ p.commonParts.foldl (fun s pt => s + pt.price) 0)
    (hdiag : ∀ d, diag = some d → ∀ r, d.estimatedCost = some r → 0 ≤ r.min + r.max) :
    0 ≤ basePartsCost.basePartsCostFallback p diag := by
  have hmean : (0:ℚ) ≤
      ((round ((p.commonParts.foldl (fun s pt => s + pt.price) 0) /
        (p.commonParts.length : ℚ)) : ℤ) : ℚ) := by
    have : (0:ℚ) ≤ (p.commonParts.foldl (fun s pt => s + pt.price) 0) /
        (p.commonParts.length : ℚ) :=
      div_nonneg hsum (by positivity)
    exact_mod_cast round_nonneg_of_nonneg this
  unfold basePartsCost.basePartsCostFallback
  cases hdg : diag with
  | none => simpa using hmean
  | some d =>
    cases hec : d.estimatedCost with
    | none =>
      dsimp only
      rw [hec]
      simpa using hmean
    | some r =>
      have hmm := hdiag d hdg r hec
      have hhalf : (0:ℚ) ≤ (r.min + r.max) / 2 := by linarith
      dsimp only
      rw [hec]
      dsimp only
      exact_mod_cast round_nonneg_of_nonneg hhalf

theorem basePartsCost_nonneg {p : PricingEntry} {selectedParts : Option (List String)}
    {diag : Option DiagnosticResult}
    (hp : ∀ pt ∈ p.commonParts, 0 ≤ pt.price)
    (hlen : 0 < p.commonParts.length)
    (hsum : 0 ≤ p.commonParts.foldl (fun s pt => s + pt.price) 0)
    (hdiag : ∀ d, diag = some d → ∀ r, d.estimatedCost = some r → 0 ≤ r.min + r.max) :
    0 ≤ basePartsCost p selectedParts diag := by
  cases selectedParts with
  | none => exact basePartsCostFallback_nonneg hlen hsum hdiag
  | some ps =>
    dsimp only [basePartsCost]
    split
    · exact selected_sum_nonneg hp ps 0 (le_refl 0)
    · exact basePartsCostFallback_nonneg hlen hsum hdiag

theorem brandAdjustedParts_nonneg {c : ℚ} (hc : 0 ≤ c) (vehicle : Option Vehicle) :
    0 ≤ brandAdjustedParts c vehicle := by
  cases vehicle with
  | none => exact hc
  | some v =>
    dsimp only [brandAdjustedParts]
    split <;> split <;> nlinarith

theorem totalWithDiscount_nonneg {s : ℚ} {dOpt : Option ℚ} (hs : 0 ≤ s)
    (hd : ∀ v, dOpt = some v → v ≤ 100) : 0 ≤ totalWithDiscount s dOpt := by
  unfold totalWithDiscount
  cases dOpt with
  | none => exact round_nonneg_of_nonneg hs
  | some v =>
    by_cases hv : v > 0
    · simp only [if_pos hv]
      have hv100 := hd v rfl
      have : (0:ℚ) ≤ s * (1 - v / 100) := mul_nonneg hs (by linarith)
      exact round_nonneg_of_nonneg this
    · simp only [if_neg hv]
      exact round_nonneg_of_nonneg hs

/-- C6 counterexample: a discount percentage above 100 makes the
returned `totalCost` negative (here −$69 with a 200% discount). -/
theorem discount_over_100_negative_total :
    (generateSmartQuote "r" { opts0 with discountPercent := some 200 } env0).map
      Quote.totalCost = some (-69) ∧ ((-69 : ℚ) < 0) := by
  refine ⟨?_, by norm_num⟩
  norm_num [generateSmartQuote, SERVICE_PRICING, SERVICE_PRICING_LIST, List.lookup,
    quoteFromPricing, jsOrQ, diagAdjustedHours, diagAdjustedRate, vehicleAdjustedHours,
    travelFee, basePartsCost, basePartsCost.basePartsCostFallback, brandAdjustedParts,
    totalWithDiscount, urgencyMult, opts0, env0, round_eq, Int.floor_eq_iff]

/-- C6 amended: `laborCost`, `partsCost` and `travelCost` are always
nonnegative, and `totalCost` is nonnegative as well, provided a supplied
`customLaborHours` is nonnegative, a used diagnostic `estimatedCost`
range has a nonnegative midpoint, and a supplied positive
`discountPercent` does not exceed 100 (beyond 100 the discount branch
produces a negative total, as the counterexample shows). -/
theorem quote_components_nonneg (reqId : String) (opts : QuoteOptions) (env : Env)
    (q : Quote) (hq : generateSmartQuote reqId opts env = some q)
    (hcustom : ∀ v, opts.customLaborHours = some v → 0 ≤ v)
    (hdiag : ∀ d, opts.aiDiagnosis = some d → ∀ r, d.estimatedCost = some r →
      0 ≤ r.min + r.max)
    (hdisc : ∀ v, opts.discountPercent = some v → v ≤ 100) :
    0 ≤ q.laborCost ∧ 0 ≤ q.partsCost ∧ 0 ≤ q.travelCost ∧ 0 ≤ q.totalCost := by
  unfold generateSmartQuote at hq
  cases hsp : SERVICE_PRICING opts.serviceType with
  | none =>
    rw [hsp] at hq
    simp at hq
  | some p =>
    rw [hsp] at hq
    simp only [Option.map_some'] at hq
    have hq2 : quoteFromPricing reqId opts env p = q := Option.some.inj hq
    subst hq2
    obtain ⟨hest, hrate, hlen, hparts, hsum⟩ := pricing_facts hsp
    have hH0 : 0 ≤ jsOrQ opts.customLaborHours p.estimatedHours :=
      jsOrQ_nonneg hcustom hest.le
    have hH1 := diagAdjustedHours_nonneg hH0 opts.aiDiagnosis
    have hH := vehicleAdjustedHours_nonneg hH1 opts.vehicle env.year
    have hR : 0 ≤ diagAdjustedRate p.laborRate opts.aiDiagnosis * urgencyMult opts.urgency :=
      mul_nonneg (diagAdjustedRate_nonneg hrate.le _) (urgencyMult_pos _).le
    have hL : (0:ℚ) ≤ ((round (vehicleAdjustedHours
        (diagAdjustedHours (jsOrQ opts.customLaborHours p.estimatedHours) opts.aiDiagnosis)
        opts.vehicle env.year *
        (diagAdjustedRate p.laborRate opts.aiDiagnosis * urgencyMult opts.urgency)) : ℤ) : ℚ) := by
      exact_mod_cast round_nonneg_of_nonneg (mul_nonneg hH hR)
    have hP : 0 ≤ brandAdjustedParts
        (basePartsCost p opts.selectedParts opts.aiDiagnosis) opts.vehicle :=
      brandAdjustedParts_nonneg (basePartsCost_nonneg hparts hlen hsum hdiag) _
    have hT := travelFee_nonneg opts.location env.dist
    have hTot : (0:ℚ) ≤ ((totalWithDiscount
        (((round (vehicleAdjustedHours
          (diagAdjustedHours (jsOrQ opts.customLaborHours p.estimatedHours) opts.aiDiagnosis)
          opts.vehicle env.year *
          (diagAdjustedRate p.laborRate opts.aiDiagnosis * urgencyMult opts.urgency)) : ℤ) : ℚ) +
          brandAdjustedParts (basePartsCost p opts.selectedParts opts.aiDiagnosis) opts.vehicle +
          travelFee opts.location env.dist)
        opts.discountPercent : ℤ) : ℚ) := by
      have hsub : (0:ℚ) ≤ ((round (vehicleAdjustedHours
          (diagAdjustedHours (jsOrQ opts.customLaborHours p.estimatedHours) opts.aiDiagnosis)
          opts.vehicle env.year *
          (diagAdjustedRate p.laborRate opts.aiDiagnosis * urgencyMult opts.urgency)) : ℤ) : ℚ) +
          brandAdjustedParts (basePartsCost p opts.selectedParts opts.aiDiagnosis) opts.vehicle +
          travelFee opts.location env.dist := by linarith
      exact_mod_cast totalWithDiscount_nonneg hsub hdisc
    exact ⟨hL, hP, hT, hTot⟩

/-- The quote produced for the plain oil-change fixture. -/
def quoteOil0 : Quote :=
  { id := "0", serviceRequestId := "r",
    description := "Professional oil change service including comprehensive inspection",
    laborCost := 41, partsCost := 28, travelCost := 0, totalCost := 69,
    estimatedDuration := 1/2, validUntil := 604800000, status := "pending" }

/-- Witness for C6's amended claim at the plain oil-change fixture. -/
theorem quote_components_nonneg_witness :
    generateSmartQuote "r" opts0 env0 = some quoteOil0 ∧
    (0 ≤ quoteOil0.laborCost ∧ 0 ≤ quoteOil0.partsCost ∧
      0 ≤ quoteOil0.travelCost ∧ 0 ≤ quoteOil0.totalCost) := by
  have hq : generateSmartQuote "r" opts0 env0 = some quoteOil0 := by
    norm_num [generateSmartQuote, SERVICE_PRICING, SERVICE_PRICING_LIST, List.lookup,
      quoteFromPricing, jsOrQ, diagAdjustedHours, diagAdjustedRate, vehicleAdjustedHours,
      travelFee, basePartsCost, basePartsCost.basePartsCostFallback, brandAdjustedParts,
      totalWithDiscount, urgencyMult, quoteDescription, opts0, env0, quoteOil0,
      Quote.mk.injEq, round_eq, Int.floor_eq_iff]
    decide
  refine ⟨hq, quote_components_nonneg "r" opts0 env0 quoteOil0 hq ?_ ?_ ?_⟩ <;>
    simp [opts0]

/-! ## C9 -/

/-- The ordering of the four urgency levels. -/
def urgencyRank : Urgency → ℕ
  | .low => 0
  | .medium => 1
  | .high => 2
  | .emergency => 3

theorem urgencyMult_mono {u1 u2 : Urgency} (h : urgencyRank u1 ≤ urgencyRank u2) :
    urgencyMult u1 ≤ urgencyMult u2 := by
  cases u1 <;> cases u2 <;> simp_all [urgencyRank, urgencyMult] <;> norm_num

theorem totalWithDiscount_mono {s1 s2 : ℚ} {dOpt : Option ℚ}
    (hd : ∀ v, dOpt = some v → v ≤ 100) (h : s1 ≤ s2) :
    totalWithDiscount s1 dOpt ≤ totalWithDiscount s2 dOpt := by
  unfold totalWithDiscount
  cases dOpt with
  | none => exact round_mono_of_le h
  | some v =>
    by_cases hv : v > 0
    · simp only [if_pos hv]
      have hv100 := hd v rfl
      exact round_mono_of_le (by nlinarith)
    · simp only [if_neg hv]
      exact round_mono_of_le h

/-- C9 counterexample: with a 200% discount, raising the urgency from
`low` to `emergency` lowers the total (−$64 versus −$84), so
`totalCost` is not monotone in urgency over all inputs. -/
theorem urgency_monotonicity_fails_with_large_discount :
    (generateSmartQuote "r" { opts0 with urgency := .low, discountPercent := some 200 }
      env0).map Quote.totalCost = some (-64) ∧
    (generateSmartQuote "r" { opts0 with urgency := .emergency, discountPercent := some 200 }
      env0).map Quote.totalCost = some (-84) ∧
    ¬ ((-64 : ℚ) ≤ -84) := by
  refine ⟨?_, ?_, by norm_num⟩ <;>
    norm_num [generateSmartQuote, SERVICE_PRICING, SERVICE_PRICING_LIST, List.lookup,
      quoteFromPricing, jsOrQ, diagAdjustedHours, diagAdjustedRate, vehicleAdjustedHours,
      travelFee, basePartsCost, basePartsCost.basePartsCostFallback, brandAdjustedParts,
      totalWithDiscount, urgencyMult, opts0, env0, round_eq, Int.floor_eq_iff]

/-- C9 amended: `totalCost` is monotonically non-decreasing in the
urgency level (low ≤ medium ≤ high ≤ emergency) for fixed other inputs,
provided a supplied `customLaborHours` is nonnegative and a supplied
`discountPercent` does not exceed 100. -/
theorem total_monotone_in_urgency (reqId : String) (opts : QuoteOptions) (env : Env)
    (u1 u2 : Urgency) (q1 q2 : Quote)
    (h1 : generateSmartQuote reqId { opts with urgency := u1 } env = some q1)
    (h2 : generateSmartQuote reqId { opts with urgency := u2 } env = some q2)
    (hcustom : ∀ v, opts.customLaborHours = some v → 0 ≤ v)
    (hdisc : ∀ v, opts.discountPercent = some v → v ≤ 100)
    (hu : urgencyRank u1 ≤ urgencyRank u2) :
    q1.totalCost ≤ q2.totalCost := by
  unfold generateSmartQuote at h1 h2
  cases hsp : SERVICE_PRICING opts.serviceType with
  | none =>
    rw [show SERVICE_PRICING ({ opts with urgency := u1 } : QuoteOptions).serviceType =
      none from hsp] at h1
    simp at h1
  | some p =>
    rw [show SERVICE_PRICING ({ opts with urgency := u1 } : QuoteOptions).serviceType =
      some p from hsp] at h1
    rw [show SERVICE_PRICING ({ opts with urgency := u2 } : QuoteOptions).serviceType =
      some p from hsp] at h2
    simp only [Option.map_some'] at h1 h2
    have hq1 : quoteFromPricing reqId { opts with urgency := u1 } env p = q1 :=
      Option.some.inj h1
    have hq2 : quoteFromPricing reqId { opts with urgency := u2 } env p = q2 :=
      Option.some.inj h2
    subst hq1
    subst hq2
    obtain ⟨hest, hrate, hlen, hparts, hsum⟩ := pricing_facts hsp
    have hH0 : 0 ≤ jsOrQ opts.customLaborHours p.estimatedHours :=
      jsOrQ_nonneg hcustom hest.le
    have hH1 := diagAdjustedHours_nonneg hH0 opts.aiDiagnosis
    have hH := vehicleAdjustedHours_nonneg hH1 opts.vehicle env.year
    have hRbase : 0 ≤ diagAdjustedRate p.laborRate opts.aiDiagnosis :=
      diagAdjustedRate_nonneg hrate.le _
    have hmul : urgencyMult u1 ≤ urgencyMult u2 := urgencyMult_mono hu
    have hprod : vehicleAdjustedHours
        (diagAdjustedHours (jsOrQ opts.customLaborHours p.estimatedHours) opts.aiDiagnosis)
        opts.vehicle env.year *
        (diagAdjustedRate p.laborRate opts.aiDiagnosis * urgencyMult u1) ≤
        vehicleAdjustedHours
        (diagAdjustedHours (jsOrQ opts.customLaborHours p.estimatedHours) opts.aiDiagnosis)
        opts.vehicle env.year *
        (diagAdjustedRate p.laborRate opts.aiDiagnosis * urgencyMult u2) := by
      apply mul_le_mul_of_nonneg_left _ hH
      exact mul_le_mul_of_nonneg_left hmul hRbase
    have hL : (((round (vehicleAdjustedHours
        (diagAdjustedHours (jsOrQ opts.customLaborHours p.estimatedHours) opts.aiDiagnosis)
        opts.vehicle env.year *
        (diagAdjustedRate p.laborRate opts.aiDiagnosis * urgencyMult u1)) : ℤ) : ℚ)) ≤
        (((round (vehicleAdjustedHours
        (diagAdjustedHours (jsOrQ opts.customLaborHours p.estimatedHours) opts.aiDiagnosis)
        opts.vehicle env.year *
        (diagAdjustedRate p.laborRate opts.aiDiagnosis * urgencyMult u2)) : ℤ) : ℚ)) := by
      exact_mod_cast round_mono_of_le hprod
    show ((totalWithDiscount _ opts.discountPercent : ℤ) : ℚ) ≤
      ((totalWithDiscount _ opts.discountPercent : ℤ) : ℚ)
    have := totalWithDiscount_mono hdisc (by linarith :
      (((round (vehicleAdjustedHours
        (diagAdjustedHours (jsOrQ opts.customLaborHours p.estimatedHours) opts.aiDiagnosis)
        opts.vehicle env.year *
        (diagAdjustedRate p.laborRate opts.aiDiagnosis * urgencyMult u1)) : ℤ) : ℚ)) +
        brandAdjustedParts (basePartsCost p opts.selectedParts opts.aiDiagnosis) opts.vehicle +
        travelFee opts.location env.dist ≤
      (((round (vehicleAdjustedHours
        (diagAdjustedHours (jsOrQ opts.customLaborHours p.estimatedHours) opts.aiDiagnosis)
        opts.vehicle env.year *
        (diagAdjustedRate p.laborRate opts.aiDiagnosis * urgencyMult u2)) : ℤ) : ℚ)) +
        brandAdjustedParts (basePartsCost p opts.selectedParts opts.aiDiagnosis) opts.vehicle +
        travelFee opts.location env.dist)
    exact_mod_cast this

/-- The low-urgency quote for the plain oil-change fixture. -/
def quoteOilLow : Quote :=
  { id := "0", serviceRequestId := "r",
    description := "Professional oil change service including comprehensive inspection",
    laborCost := 36, partsCost := 28, travelCost := 0, totalCost := 64,
    estimatedDuration := 1/2, validUntil := 604800000, status := "pending" }

/-- The emergency-urgency quote for the plain oil-change fixture. -/
def quoteOilEmergency : Quote :=
  { id := "0", serviceRequestId := "r",
    description := "Professional oil change service including comprehensive inspection",
    laborCost := 56, partsCost := 28, travelCost := 0, totalCost := 84,
    estimatedDuration := 1/2, validUntil := 604800000, status := "pending" }

/-- Witness for C9's amended claim: low versus emergency urgency on the
oil-change fixture ($64 ≤ $84). -/
theorem total_monotone_in_urgency_witness :
    generateSmartQuote "r" { opts0 with urgency := .low } env0 = some quoteOilLow ∧
    generateSmartQuote "r" { opts0 with urgency := .emergency } env0 =
      some quoteOilEmergency ∧
    quoteOilLow.totalCost ≤ quoteOilEmergency.totalCost := by
  have hlow : generateSmartQuote "r" { opts0 with urgency := .low } env0 =
      some quoteOilLow := by
    norm_num [generateSmartQuote, SERVICE_PRICING, SERVICE_PRICING_LIST, List.lookup,
      quoteFromPricing, jsOrQ, diagAdjustedHours, diagAdjustedRate, vehicleAdjustedHours,
      travelFee, basePartsCost, basePartsCost.basePartsCostFallback, brandAdjustedParts,
      totalWithDiscount, urgencyMult, quoteDescription, opts0, env0, quoteOilLow,
      Quote.mk.injEq, round_eq, Int.floor_eq_iff]
    decide
  have hem : generateSmartQuote "r" { opts0 with urgency := .emergency } env0 =
      some quoteOilEmergency := by
    norm_num [generateSmartQuote, SERVICE_PRICING, SERVICE_PRICING_LIST, List.lookup,
      quoteFromPricing, jsOrQ, diagAdjustedHours, diagAdjustedRate, vehicleAdjustedHours,
      travelFee, basePartsCost, basePartsCost.basePartsCostFallback, brandAdjustedParts,
      totalWithDiscount, urgencyMult, quoteDescription, opts0, env0, quoteOilEmergency,
      Quote.mk.injEq, round_eq, Int.floor_eq_iff]
    decide
  refine ⟨hlow, hem, total_monotone_in_urgency "r" opts0 env0 .low .emergency _ _
    hlow hem ?_ ?_ ?_⟩ <;> simp [opts0, urgencyRank]
